import Mathlib

/-!
Verification development for the Hellio HR email agent
(`agent/config.py`, `agent/run.py`, `agent/hr_agent.py`,
`agent/tools/gmail_api.py`, `agent/tools/hellio_api.py`).

The Python source is shallowly embedded: pure decision logic becomes Lean
functions, HTTP/IO effects become functions of the environment's responses
(status codes, parsed bodies, attempt outcomes), and the Gmail gateway's
calls are recorded as explicit operation traces so that temporal claims
("never sends") can be stated about every execution.
-/

namespace Hellio

/-! ## Configuration (`agent/config.py`) -/

/-- `config.py` line 15: `MAX_EMAILS_PER_CYCLE = int(os.getenv("MAX_EMAILS_PER_CYCLE", "10"))`.
`envVal` is the parsed integer value of the environment variable when it is set;
when unset the string default `"10"` parses to `10`. -/
def MAX_EMAILS_PER_CYCLE (envVal : Option Nat) : Nat :=
  envVal.getD 10

/-! ## Hellio API tools (`agent/tools/hellio_api.py`) -/

/-- Result of `check_email_processed`: the `found` flag plus the merged backend
record (`{"found": True, **response.json()}`); the record is the parsed JSON
body, modelled as an association list. -/
structure CheckResult where
  found : Bool
  record : Option (List (String × String))
deriving DecidableEq, Repr

/-- `check_email_processed(email_id)` as a function of the backend response:
returns `{found: false}` when the ledger endpoint answers 404, otherwise
`{found: true}` merged with the parsed response body (no other status is
distinguished). -/
def check_email_processed (status : Nat) (body : List (String × String)) : CheckResult :=
  if status = 404 then ⟨false, none⟩ else ⟨true, some body⟩

/-- The scheduler's selection step: pick the first email id whose
`check_email_processed` result is not `found` (run.py prompt, step 2). -/
def firstUnprocessed (statusOf : String → Nat) (bodyOf : String → List (String × String))
    (ids : List String) : Option String :=
  ids.find? (fun i => !(check_email_processed (statusOf i) (bodyOf i)).found)

/-- A match suggestion returned by the embeddings endpoints: entity id, display
name and similarity score (scores are decimal fractions; embedded as `ℚ`). -/
structure MatchSuggestion where
  entityId : String
  entityName : String
  similarity : ℚ
deriving DecidableEq, Repr

/-- `suggest_candidates_for_position(position_id)` as a function of the backend
response: every non-200 status yields the empty list, a 200 status yields the
parsed body. -/
def suggest_candidates_for_position (status : Nat) (body : List MatchSuggestion) :
    List MatchSuggestion :=
  if status ≠ 200 then [] else body

/-- The names defined at module level in `tools/hellio_api.py`. -/
def hellioApiDefs : List String :=
  ["get_auth_token", "auth_headers", "ingest_cv", "ingest_job",
   "save_email_as_text", "create_notification", "mark_email_processed",
   "check_email_processed", "get_positions", "get_candidates",
   "suggest_candidates_for_position", "get_candidate_details",
   "get_position_details"]

/-- The names `create_agent` imports from `tools.hellio_api`
(`hr_agent.py` lines 294-308, in source order). -/
def createAgentHellioImports : List String :=
  ["ingest_cv", "ingest_job", "download_and_ingest_cv", "save_email_as_text",
   "create_notification", "mark_email_processed", "check_email_processed",
   "get_positions", "get_candidates", "suggest_candidates_for_position",
   "suggest_positions_for_candidate", "get_candidate_details",
   "get_position_details"]

/-- Python's `from tools.hellio_api import (...)` fails with `ImportError` at
the first requested name the module does not define. -/
def firstMissingImport : Option String :=
  createAgentHellioImports.find? (fun n => !hellioApiDefs.contains n)

/-- `create_agent()` (`hr_agent.py`): executes the import list, then registers
the imported tools; an `ImportError` propagates to the caller. On success the
registered Hellio tool names are returned. -/
def create_agent : Except String (List String) :=
  match firstMissingImport with
  | some n => .error ("ImportError: cannot import name " ++ n)
  | none => .ok createAgentHellioImports

/-! ## Template selector (`hr_agent.py`, SYSTEM_PROMPT workflow rules)

The reply-template decision is stated twice in the system prompt (candidate
workflow step 3, lines 26-34, and Workflow 2 step 3, lines 114-122), both
times as the same ordered rule chain over the similarity scores returned by
the matching call. -/

/-- The reply templates the prompt's decision rules select among:
B4 Strong Match, B5 Potential Match, B6 Weak + Alternatives,
B7 Weak No Alternatives. -/
inductive Template
  | strongMatch
  | potentialMatch
  | weakWithAlternatives
  | weakNoAlternatives
deriving DecidableEq, Repr

/-- The template-selection rules, in the prompt's order:
empty list → B5 (Potential); any score `≥ 0.8` → B4 (Strong); any score
`≥ 0.6` → B5 (Potential); otherwise B6 when alternative positions exist,
else B7. `hasAlternatives` is the prompt's "there are alternative positions"
input. -/
def selectTemplate (sims : List ℚ) (hasAlternatives : Bool) : Template :=
  if sims.isEmpty then .potentialMatch
  else if sims.any (fun s => (4 : ℚ)/5 ≤ s) then .strongMatch
  else if sims.any (fun s => (3 : ℚ)/5 ≤ s) then .potentialMatch
  else if hasAlternatives then .weakWithAlternatives
  else .weakNoAlternatives

/-! ## Gmail gateway (`agent/tools/gmail_api.py`)

Each tool's execution is embedded as the sequence of Gmail API operations it
performs, as a function of the environment's responses (found message ids,
attempt outcomes). -/

/-- Ids returned by a successful `drafts.create` call: draft id and the
created message's id. -/
structure DraftIds where
  draftId : String
  messageId : String
deriving DecidableEq, Repr

/-- The message `create_draft` submits: `{"message": {"raw": raw}}`, with a
`threadId` key added under the stated condition. -/
structure DraftMessage where
  raw : String
  threadId : Option String
deriving DecidableEq, Repr

/-- `create_draft`'s construction of the submitted message: `threadId` is set
to `reply_to_message_id` exactly when that argument is truthy in Python
(provided and non-empty). -/
def buildDraftMessage (raw : String) (replyToMessageId : Option String) : DraftMessage :=
  match replyToMessageId with
  | none => ⟨raw, none⟩
  | some r => if r = "" then ⟨raw, none⟩ else ⟨raw, some r⟩

/-- Does the character list start with the pattern? -/
def sameStart : List Char → List Char → Bool
  | _, [] => true
  | [], _ :: _ => false
  | a :: as, b :: bs => a == b && sameStart as bs

/-- Does the character list contain the pattern as a contiguous run? -/
def hasSub : List Char → List Char → Bool
  | [], pat => pat.isEmpty
  | a :: rest, pat => sameStart (a :: rest) pat || hasSub rest pat

/-- Python's `"SSL" in str(e)` test from `create_draft`'s except clause. -/
def containsSSL (e : String) : Bool := hasSub e.toList "SSL".toList

/-- ASCII lowercasing of one character, as Python's `str.lower()` acts on the
ASCII range. -/
def lowerChar (c : Char) : Char :=
  if c.isUpper then Char.ofNat (c.toNat + 32) else c

/-- One execution of `create_draft` after the message is built: `result` is
what the call returns and `attempts` records, in order, every `drafts.create`
attempt actually made, as (force-refresh flag, submitted message). -/
structure CreateDraftRun where
  result : Except String DraftIds
  attempts : List (Bool × DraftMessage)
deriving Repr

/-- `create_draft`'s retry loop (`for attempt in range(2)`): the first attempt
uses the cached service (`force_refresh = attempt > 0` is false); on an
exception whose text contains "SSL" and only on the first attempt, the loop
continues into a second attempt with a force-refreshed service; every other
failure returns an error result immediately. `r1`, `r2` are the outcomes the
environment gives the first and second `drafts.create` attempt. -/
def create_draft_run (msg : DraftMessage) (r1 r2 : Except String DraftIds) :
    CreateDraftRun :=
  match r1 with
  | .ok d => ⟨.ok d, [(false, msg)]⟩
  | .error e =>
    if containsSSL e then
      match r2 with
      | .ok d => ⟨.ok d, [(false, msg), (true, msg)]⟩
      | .error e2 => ⟨.error e2, [(false, msg), (true, msg)]⟩
    else ⟨.error e, [(false, msg)]⟩

/-- The Gmail API operations the gateway can issue. `sendMessage` is the
Gmail `users.messages.send` operation; it is part of the API surface but the
gateway must never issue it. -/
inductive GmailOp
  | listMessages (query : String) (maxResults : Nat)
  | getMessage (id : String)
  | getAttachment (msgId attId : String)
  | draftsCreate (msg : DraftMessage)
  | modifyLabels (msgId : String) (removeLabels addLabels : List String)
  | sendMessage (raw : String)
deriving DecidableEq, Repr

/-- One invocation of a gateway tool, with the environment data its trace
depends on: `search` lists then fetches metadata of each found id; `draft`
carries the outcomes of its `drafts.create` attempts. -/
inductive GatewayCall
  | search (query : String) (maxResults : Nat) (foundIds : List String)
  | readMail (messageId : String)
  | download (messageId attachmentId : String)
  | draft (msg : DraftMessage) (r1 r2 : Except String DraftIds)
  | markRead (messageId : String)

/-- The Gmail operations each gateway tool performs, from the source:
`search_emails` = one `list` plus one metadata `get` per found id;
`read_email` = one full `get`; `download_attachment` = one `attachments.get`;
`create_draft` = one `drafts.create` per attempt of its retry loop;
`mark_email_as_read` = one `modify` removing the `UNREAD` label. -/
def opsOf : GatewayCall → List GmailOp
  | .search q m ids => GmailOp.listMessages q m :: ids.map GmailOp.getMessage
  | .readMail i => [.getMessage i]
  | .download m a => [.getAttachment m a]
  | .draft msg r1 r2 =>
    (create_draft_run msg r1 r2).attempts.map (fun ab => .draftsCreate ab.2)
  | .markRead i => [.modifyLabels i ["UNREAD"] []]

/-- Mailbox-mutating Gmail operations: draft creation, label modification,
and sending. -/
def isMutating : GmailOp → Bool
  | .draftsCreate _ => true
  | .modifyLabels _ _ _ => true
  | .sendMessage _ => true
  | _ => false

/-! ## Workflow drafting (`hr_agent.py` SYSTEM_PROMPT mandated sequences) -/

/-- Attachment metadata as `read_email` reports it. -/
structure AttachmentInfo where
  filename : String
  mimeType : String
  attachmentId : String
  size : Nat
deriving DecidableEq, Repr

/-- An inbound email as the workflow sees it. -/
structure InboundMessage where
  id : String
  fromAddr : String
  toAddr : String
  subject : String
  body : String
  attachments : List AttachmentInfo
deriving DecidableEq, Repr

/-- Message category per the prompt's Email Classification section. -/
inductive Category
  | candidate
  | position
  | other
deriving DecidableEq, Repr

/-- One call the workflow makes to `create_draft` (`toAddr` is the `to`
argument). -/
structure DraftCall where
  toAddr : String
  subject : String
  body : String
  replyToMessageId : Option String
deriving DecidableEq, Repr

/-- Environment inputs of one workflow run that come from external
collaborators: the ingestion result, the matching scores, the prompt's
alternative-positions judgment, the job-posting field check, and the
NLG-composed draft text (out of scope per the spec). -/
structure WorkflowEnv where
  ingestedId : Option String
  sims : List ℚ
  hasAlternatives : Bool
  fieldsSufficient : Bool
  draftText : String
deriving DecidableEq, Repr

/-- Subject line of the selected candidate reply template. -/
def templateSubject : Template → String
  | .strongMatch => "Your Application - Next Steps"
  | .potentialMatch => "Your Application - Under Review"
  | .weakWithAlternatives => "Alternative Opportunities"
  | .weakNoAlternatives => "Thank You for Your Application"

/-- The `create_draft` calls one workflow run makes, per the prompt's
mandated sequences: `other` emails get no draft; a candidate email without an
attachment gets a CV-request draft; after successful CV ingestion the
template-selected reply is drafted; a failed ingestion drafts nothing (error
notification only); a job posting gets an information-request draft when the
mandatory fields are missing and a confirmation draft after successful
ingestion. Prompt rule 9: every `create_draft` call passes
`reply_to_message_id` = the original message's id. -/
def workflowDraftCalls (msg : InboundMessage) (cat : Category) (env : WorkflowEnv) :
    List DraftCall :=
  match cat with
  | .other => []
  | .candidate =>
    if msg.attachments.isEmpty then
      [⟨msg.fromAddr, "CV Needed", env.draftText, some msg.id⟩]
    else
      match env.ingestedId with
      | none => []
      | some _ =>
        [⟨msg.fromAddr, templateSubject (selectTemplate env.sims env.hasAlternatives),
          env.draftText, some msg.id⟩]
  | .position =>
    if env.fieldsSufficient then
      match env.ingestedId with
      | none => []
      | some _ => [⟨msg.fromAddr, "Position Active", env.draftText, some msg.id⟩]
    else
      [⟨msg.fromAddr, "Additional Information Needed", env.draftText, some msg.id⟩]

/-! ## Poll scheduler (`agent/run.py` main loop) -/

/-- What one polling cycle's try/except block produced: the `has_work` flag,
the number of agent dispatches made, whether the error branch printed the
error, whether it attempted the best-effort error-notification POST, and
whether that POST's own failure was printed. -/
structure CycleOutcome where
  hasWork : Bool
  agentCalls : Nat
  errorLogged : Bool
  notifyAttempted : Bool
  notifyFailureLogged : Bool
deriving DecidableEq, Repr

/-- Is the `Except` an error? -/
def isErr {ε α : Type} : Except ε α → Bool
  | .error _ => true
  | .ok _ => false

/-- The try/except body of one polling cycle (`run.py` lines 59-106), as a
function of the agent call's outcome and, on the error branch, the outcome of
the best-effort notification POST. The outer `Except` is the cycle raising an
unhandled exception to the loop: the except clause catches every exception
from the agent call, prints it, sets `has_work = False`, and wraps the
notification POST in its own try/except that only prints, so no path
re-raises. On success `has_work` is true unless the lowercased result text
contains "no new emails". -/
def cycleBody (agentRes : Except String String) (notifyRes : Except String Unit) :
    Except String CycleOutcome :=
  match agentRes with
  | .ok r =>
    .ok ⟨!hasSub (r.toList.map lowerChar) "no new emails".toList, 1, false, false, false⟩
  | .error _ => .ok ⟨false, 1, true, true, isErr notifyRes⟩

/-- The environment of one cycle: the agent call's outcome and the outcome of
the error-branch notification POST (unused when the agent call succeeds). -/
structure CycleEnv where
  agentRes : Except String String
  notifyRes : Except String Unit

/-- `run.py` line 13: cycles between agent re-creations. -/
def RESET_INTERVAL : Nat := 50

/-- The periodic agent reset (`run.py` lines 55-57): at the top of the loop
body, before and outside the try/except, `agent = create_agent()` is re-run;
its exception, if any, escapes the loop body. The reset's outcome is that of
the embedded `create_agent`. -/
def resetAgent : Except String Unit :=
  match create_agent with
  | .ok _ => .ok ()
  | .error e => .error e

/-- The polling loop (`run.py` lines 49-116) over a finite schedule of cycle
environments, with the cycle counter threaded (`cycle` is its value before
the iteration's increment at the top of the body). Each iteration increments
the counter; when the incremented counter is a multiple of `RESET_INTERVAL`
it performs the agent reset, outside the try/except, so an exception from
`create_agent` there escapes and aborts the loop; then the guarded cycle
body runs. Returns the completed cycles' outcomes. -/
def runCycles (cycle : Nat) : List CycleEnv → Except String (List CycleOutcome)
  | [] => .ok []
  | e :: rest =>
    if (cycle + 1) % RESET_INTERVAL = 0 then
      match resetAgent with
      | .error s => .error s
      | .ok () =>
        match cycleBody e.agentRes e.notifyRes with
        | .error s => .error s
        | .ok o =>
          match runCycles (cycle + 1) rest with
          | .error s => .error s
          | .ok os => .ok (o :: os)
    else
      match cycleBody e.agentRes e.notifyRes with
      | .error s => .error s
      | .ok o =>
        match runCycles (cycle + 1) rest with
        | .error s => .error s
        | .ok os => .ok (o :: os)

/-- The sleep loop (`for _ in range(POLL_INTERVAL): if not running: break;
time.sleep(1)`): the number of one-second sleeps performed, where
`runningAt i` tells whether the `running` flag is still set when iteration
`i` checks it; the first argument of the recursion is the current iteration
index, the second the remaining iterations. -/
def sleptFrom (runningAt : Nat → Bool) (i : Nat) : Nat → Nat
  | 0 => 0
  | n + 1 => if runningAt i then 1 + sleptFrom runningAt (i + 1) n else 0

/-- Seconds slept after a cycle (`run.py` lines 108-116): the sleep loop runs
only when `running` is set and the cycle found no work; a cycle that
dispatched work proceeds to the next cycle immediately. -/
def postCycleSleep (running hasWork : Bool) (interval : Nat)
    (runningAt : Nat → Bool) : Nat :=
  if running && !hasWork then sleptFrom runningAt 0 interval else 0

end Hellio

/-! ## Helper lemmas -/

/-- When the running flag stays set, the sleep loop performs every iteration. -/
theorem sleptFrom_all_true (runningAt : Nat → Bool)
    (h : ∀ i, runningAt i = true) : ∀ n i, Hellio.sleptFrom runningAt i n = n := by
  intro n
  induction n with
  | zero => intro i; rfl
  | succ m ih =>
    intro i
    simp only [Hellio.sleptFrom, h i, if_true, ih (i + 1)]
    omega

/-- The sleep loop never performs more iterations than remain. -/
theorem sleptFrom_le (runningAt : Nat → Bool) :
    ∀ n i, Hellio.sleptFrom runningAt i n ≤ n := by
  intro n
  induction n with
  | zero => intro i; exact Nat.le_refl 0
  | succ m ih =>
    intro i
    by_cases hr : runningAt i
    · have := ih (i + 1)
      simp only [Hellio.sleptFrom, hr, if_true]
      omega
    · simp [Hellio.sleptFrom, hr]

/-- Once the running flag is cleared at iteration `k`, a sleep loop starting
at iteration `i ≤ k` performs at most `k - i` one-second sleeps. -/
theorem sleptFrom_le_of_stop (runningAt : Nat → Bool) (k : Nat)
    (hk : runningAt k = false) :
    ∀ n i, i ≤ k → Hellio.sleptFrom runningAt i n ≤ k - i := by
  intro n
  induction n with
  | zero => intro i _; exact Nat.zero_le _
  | succ m ih =>
    intro i hik
    by_cases hr : runningAt i
    · have hne : i ≠ k := fun h => by rw [h, hk] at hr; cases hr
      have hlt : i < k := lt_of_le_of_ne hik hne
      have := ih (i + 1) hlt
      simp only [Hellio.sleptFrom, hr, if_true]
      omega
    · simp [Hellio.sleptFrom, hr]

/-! ## Claim theorems -/

/-- Claim C1: the claim asserts that `create_agent` succeeds in importing and
registering both matching tools, every name it imports from `tools.hellio_api`
being defined there. In the code this fails: the import list names
`download_and_ingest_cv` and `suggest_positions_for_candidate`, neither of
which `tools/hellio_api.py` defines, so every invocation of `create_agent`
raises `ImportError` (at the first missing name, `download_and_ingest_cv`)
and in particular `suggest_positions_for_candidate` is never registered. -/
theorem c1_create_agent_import_fails :
    Hellio.create_agent = .error "ImportError: cannot import name download_and_ingest_cv" ∧
    "suggest_positions_for_candidate" ∈ Hellio.createAgentHellioImports ∧
    "suggest_positions_for_candidate" ∉ Hellio.hellioApiDefs ∧
    "download_and_ingest_cv" ∉ Hellio.hellioApiDefs := by
  refine ⟨rfl, ?_, ?_, ?_⟩ <;> decide

/-- Claim C9: `check_email_processed` reports `found: false` exactly when the
ledger responds 404; every other status (500 included) yields `found: true`,
so the scheduler's first-unprocessed selection skips a message whose ledger
check returned a server error. -/
theorem c9_check_email_processed_found_iff_not_404
    (status : Nat) (body : List (String × String))
    (bodyOf : String → List (String × String)) (m : String) :
    ((Hellio.check_email_processed status body).found = false ↔ status = 404) ∧
    (Hellio.check_email_processed 500 body).found = true ∧
    Hellio.firstUnprocessed (fun _ => 500) bodyOf [m] = none := by
  refine ⟨?_, ?_, ?_⟩
  · unfold Hellio.check_email_processed
    by_cases h : status = 404 <;> simp [h]
  · simp [Hellio.check_email_processed]
  · simp [Hellio.firstUnprocessed, Hellio.check_email_processed, List.find?]

/-- Claim C10: `suggest_candidates_for_position` returns `[]` for every
backend response whose status is not 200, and a successful 200 response with
no matches also returns `[]`, so the two are indistinguishable to the caller;
the embedded function is total (it never raises and performs no notification
call). -/
theorem c10_suggest_candidates_silent_on_failure
    (status : Nat) (body : List Hellio.MatchSuggestion)
    (h : status ≠ 200) :
    Hellio.suggest_candidates_for_position status body = [] ∧
    Hellio.suggest_candidates_for_position 200 [] = [] := by
  constructor
  · simp [Hellio.suggest_candidates_for_position, h]
  · simp [Hellio.suggest_candidates_for_position]

/-- Witness for C10 at the concrete failing status 500 with a non-empty body. -/
theorem c10_witness :
    Hellio.suggest_candidates_for_position 500 [⟨"c1", "Ada", 9/10⟩] = [] ∧
    Hellio.suggest_candidates_for_position 200 [] = [] :=
  c10_suggest_candidates_silent_on_failure 500 [⟨"c1", "Ada", 9/10⟩] (by decide)

/-- Claim C4 counterexample: the configuration value `MAX_EMAILS_PER_CYCLE`
is 10 in the default environment, not 1 as the claim states. -/
theorem c4_counterexample : Hellio.MAX_EMAILS_PER_CYCLE none ≠ 1 := by
  decide

/-- Claim C2: the template selector is a pure total function of the match
results. For the empty match list it selects Potential-Match; when the best
similarity `b` satisfies `b ≥ 0.8` it selects Strong-Match; when
`0.6 ≤ b < 0.8` it selects Potential-Match; when `b < 0.6` it selects
Weak-Match-With-Alternatives exactly when alternatives exist and
Weak-Match-No-Alternatives otherwise. Both thresholds are inclusive lower
bounds, so `b = 0.8` gives Strong-Match and `b = 0.6` gives Potential-Match
(witnessed at exactly those values). -/
theorem c2_select_template (sims : List ℚ) (b : ℚ) (alt : Bool)
    (hmem : b ∈ sims) (hmax : ∀ x ∈ sims, x ≤ b) :
    Hellio.selectTemplate [] alt = .potentialMatch ∧
    ((4 : ℚ)/5 ≤ b → Hellio.selectTemplate sims alt = .strongMatch) ∧
    ((3 : ℚ)/5 ≤ b → b < (4 : ℚ)/5 → Hellio.selectTemplate sims alt = .potentialMatch) ∧
    (b < (3 : ℚ)/5 → Hellio.selectTemplate sims alt =
      (if alt then .weakWithAlternatives else .weakNoAlternatives)) := by
  have hie : sims.isEmpty = false := by
    cases sims with
    | nil => exact absurd hmem (List.not_mem_nil b)
    | cons a t => rfl
  have h8any : sims.any (fun s => decide ((4 : ℚ)/5 ≤ s)) = true ↔ (4 : ℚ)/5 ≤ b := by
    simp only [List.any_eq_true, decide_eq_true_eq]
    exact ⟨fun ⟨x, hx, hxb⟩ => le_trans hxb (hmax x hx), fun h => ⟨b, hmem, h⟩⟩
  have h6any : sims.any (fun s => decide ((3 : ℚ)/5 ≤ s)) = true ↔ (3 : ℚ)/5 ≤ b := by
    simp only [List.any_eq_true, decide_eq_true_eq]
    exact ⟨fun ⟨x, hx, hxb⟩ => le_trans hxb (hmax x hx), fun h => ⟨b, hmem, h⟩⟩
  refine ⟨by simp [Hellio.selectTemplate], ?_, ?_, ?_⟩
  · intro h8
    have h8t := h8any.mpr h8
    simp [Hellio.selectTemplate, hie, h8t]
  · intro h6 h8
    have h8f : sims.any (fun s => decide ((4 : ℚ)/5 ≤ s)) = false := by
      rw [← Bool.not_eq_true, h8any]
      exact not_le.mpr h8
    have h6t := h6any.mpr h6
    simp [Hellio.selectTemplate, hie, h8f, h6t]
  · intro hlt
    have h8f : sims.any (fun s => decide ((4 : ℚ)/5 ≤ s)) = false := by
      rw [← Bool.not_eq_true, h8any]
      exact not_le.mpr (lt_trans hlt (by norm_num))
    have h6f : sims.any (fun s => decide ((3 : ℚ)/5 ≤ s)) = false := by
      rw [← Bool.not_eq_true, h6any]
      exact not_le.mpr hlt
    simp [Hellio.selectTemplate, hie, h8f, h6f]

/-- Witness for C2: the empty list gives Potential-Match, best similarity
exactly 0.8 gives Strong-Match, and best similarity exactly 0.6 gives
Potential-Match (the boundary cases of the inclusive thresholds). -/
theorem c2_witness :
    Hellio.selectTemplate [] false = .potentialMatch ∧
    Hellio.selectTemplate [(4 : ℚ)/5] false = .strongMatch ∧
    Hellio.selectTemplate [(3 : ℚ)/5] true = .potentialMatch :=
  ⟨(c2_select_template [(4 : ℚ)/5] ((4 : ℚ)/5) false (by simp)
      (by intro x hx; simp at hx; simp [hx])).1,
   (c2_select_template [(4 : ℚ)/5] ((4 : ℚ)/5) false (by simp)
      (by intro x hx; simp at hx; simp [hx])).2.1 le_rfl,
   (c2_select_template [(3 : ℚ)/5] ((3 : ℚ)/5) true (by simp)
      (by intro x hx; simp at hx; simp [hx])).2.2.1 le_rfl (by norm_num)⟩

/-- Claim C3: in every execution of every mail-gateway tool, no send
operation is ever invoked, and the only mailbox-mutating operations are
draft creation and the label modification that removes the `UNREAD` label. -/
theorem c3_gateway_never_sends (c : Hellio.GatewayCall) (op : Hellio.GmailOp)
    (hop : op ∈ Hellio.opsOf c) :
    (∀ raw, op ≠ Hellio.GmailOp.sendMessage raw) ∧
    (Hellio.isMutating op = true →
      (∃ m, op = Hellio.GmailOp.draftsCreate m) ∨
      (∃ i, op = Hellio.GmailOp.modifyLabels i ["UNREAD"] [])) := by
  cases c with
  | search q mx ids =>
    simp only [Hellio.opsOf, List.mem_cons, List.mem_map] at hop
    rcases hop with h | ⟨i, _, h⟩ <;> subst h <;>
      exact ⟨fun raw h => (by cases h), fun hmut => (by simp [Hellio.isMutating] at hmut)⟩
  | readMail i =>
    simp only [Hellio.opsOf, List.mem_singleton] at hop
    subst hop
    exact ⟨fun raw h => (by cases h), fun hmut => (by simp [Hellio.isMutating] at hmut)⟩
  | download m a =>
    simp only [Hellio.opsOf, List.mem_singleton] at hop
    subst hop
    exact ⟨fun raw h => (by cases h), fun hmut => (by simp [Hellio.isMutating] at hmut)⟩
  | draft msg r1 r2 =>
    simp only [Hellio.opsOf, List.mem_map] at hop
    obtain ⟨ab, _, h⟩ := hop
    subst h
    exact ⟨fun raw h => (by cases h), fun _ => Or.inl ⟨ab.2, rfl⟩⟩
  | markRead i =>
    simp only [Hellio.opsOf, List.mem_singleton] at hop
    subst hop
    exact ⟨fun raw h => (by cases h), fun _ => Or.inr ⟨i, rfl⟩⟩

/-- Witness for C3, applied to one concrete execution of each mutating tool:
the `mark_email_as_read "m1"` trace's only operation and the single-attempt
`create_draft` trace's only operation each satisfy the claim. -/
theorem c3_witness :
    ((∀ raw, Hellio.GmailOp.modifyLabels "m1" ["UNREAD"] [] ≠
        Hellio.GmailOp.sendMessage raw) ∧
      (Hellio.isMutating (Hellio.GmailOp.modifyLabels "m1" ["UNREAD"] []) = true →
        (∃ m, Hellio.GmailOp.modifyLabels "m1" ["UNREAD"] [] =
            Hellio.GmailOp.draftsCreate m) ∨
        (∃ i, Hellio.GmailOp.modifyLabels "m1" ["UNREAD"] [] =
            Hellio.GmailOp.modifyLabels i ["UNREAD"] []))) ∧
    ((∀ raw, Hellio.GmailOp.draftsCreate ⟨"r", none⟩ ≠
        Hellio.GmailOp.sendMessage raw) ∧
      (Hellio.isMutating (Hellio.GmailOp.draftsCreate ⟨"r", none⟩) = true →
        (∃ m, Hellio.GmailOp.draftsCreate ⟨"r", none⟩ =
            Hellio.GmailOp.draftsCreate m) ∨
        (∃ i, Hellio.GmailOp.draftsCreate ⟨"r", none⟩ =
            Hellio.GmailOp.modifyLabels i ["UNREAD"] []))) :=
  ⟨c3_gateway_never_sends (.markRead "m1") (.modifyLabels "m1" ["UNREAD"] [])
      (by simp [Hellio.opsOf]),
   c3_gateway_never_sends (.draft ⟨"r", none⟩ (.ok ⟨"d1", "m1"⟩) (.ok ⟨"d1", "m1"⟩))
      (.draftsCreate ⟨"r", none⟩)
      (by simp [Hellio.opsOf, Hellio.create_draft_run])⟩

/-- Claim C5 counterexample: the first `drafts.create` attempt fails with
"Connection refused" - the backend unreachable, a transient transport fault
in the spec's taxonomy - yet `create_draft` makes no second attempt (even
though one would have succeeded): it surfaces the error after a single
attempt, because the retry condition requires the text "SSL" in the error. -/
theorem c5_counterexample :
    Hellio.create_draft_run ⟨"raw", none⟩ (.error "Connection refused")
        (.ok ⟨"d1", "m1"⟩) =
      ⟨.error "Connection refused", [(false, ⟨"raw", none⟩)]⟩ := by
  have h : Hellio.containsSSL "Connection refused" = false := by decide
  simp [Hellio.create_draft_run, h]

/-- Claim C5 (amended): `create_draft` performs exactly one automatic retry,
with a force-refreshed service, when and only when the first attempt fails
with an error whose text contains "SSL"; a first-attempt failure without
"SSL" in its text (transport or not) and any second-attempt failure are
surfaced as an error result without further retry. -/
theorem c5_create_draft_retry (msg : Hellio.DraftMessage)
    (r1 r2 : Except String Hellio.DraftIds) :
    (∀ d, r1 = .ok d →
      Hellio.create_draft_run msg r1 r2 = ⟨.ok d, [(false, msg)]⟩) ∧
    (∀ e, r1 = .error e → Hellio.containsSSL e = true →
      (Hellio.create_draft_run msg r1 r2).attempts = [(false, msg), (true, msg)] ∧
      (Hellio.create_draft_run msg r1 r2).result = r2) ∧
    (∀ e, r1 = .error e → Hellio.containsSSL e = false →
      Hellio.create_draft_run msg r1 r2 = ⟨.error e, [(false, msg)]⟩) := by
  refine ⟨?_, ?_, ?_⟩
  · rintro d rfl; rfl
  · rintro e rfl hssl
    cases r2 <;> simp [Hellio.create_draft_run, hssl]
  · rintro e rfl hssl
    simp [Hellio.create_draft_run, hssl]

/-- Witness for C5 (amended) at a first attempt failing with "SSL error": the
run makes exactly the two attempts, the second force-refreshed, and returns
the second attempt's outcome. -/
theorem c5_witness :
    (Hellio.create_draft_run ⟨"raw", none⟩ (.error "SSL error")
        (.ok ⟨"d1", "m1"⟩)).attempts =
      [(false, ⟨"raw", none⟩), (true, ⟨"raw", none⟩)] ∧
    (Hellio.create_draft_run ⟨"raw", none⟩ (.error "SSL error")
        (.ok ⟨"d1", "m1"⟩)).result = .ok ⟨"d1", "m1"⟩ :=
  (c5_create_draft_retry ⟨"raw", none⟩ (.error "SSL error")
    (.ok ⟨"d1", "m1"⟩)).2.1 "SSL error" rfl (by decide)

/-- Claim C8: every reply draft the workflow creates passes
`reply_to_message_id` = the original message's id (prompt rule 9), and for
every such call `create_draft` links the submitted draft message to that id
via its `threadId`, on every attempt it submits. -/
theorem c8_drafts_thread (msg : Hellio.InboundMessage) (cat : Hellio.Category)
    (env : Hellio.WorkflowEnv) (c : Hellio.DraftCall) (raw : String)
    (r1 r2 : Except String Hellio.DraftIds)
    (hc : c ∈ Hellio.workflowDraftCalls msg cat env) (hid : msg.id ≠ "") :
    c.replyToMessageId = some msg.id ∧
    (Hellio.buildDraftMessage raw c.replyToMessageId).threadId = some msg.id ∧
    (∀ ab ∈ (Hellio.create_draft_run
        (Hellio.buildDraftMessage raw c.replyToMessageId) r1 r2).attempts,
      ab.2.threadId = some msg.id) := by
  have hreply : c.replyToMessageId = some msg.id := by
    cases cat with
    | other => simp [Hellio.workflowDraftCalls] at hc
    | candidate =>
      by_cases ha : msg.attachments.isEmpty
      · simp [Hellio.workflowDraftCalls, ha] at hc
        rw [hc]
      · cases hi : env.ingestedId with
        | none => simp [Hellio.workflowDraftCalls, ha, hi] at hc
        | some i =>
          simp [Hellio.workflowDraftCalls, ha, hi] at hc
          rw [hc]
    | position =>
      by_cases hf : env.fieldsSufficient
      · cases hi : env.ingestedId with
        | none => simp [Hellio.workflowDraftCalls, hf, hi] at hc
        | some i =>
          simp [Hellio.workflowDraftCalls, hf, hi] at hc
          rw [hc]
      · simp [Hellio.workflowDraftCalls, hf] at hc
        rw [hc]
  have hbuild : Hellio.buildDraftMessage raw c.replyToMessageId =
      ⟨raw, some msg.id⟩ := by
    rw [hreply]
    simp [Hellio.buildDraftMessage, hid]
  refine ⟨hreply, by rw [hbuild], ?_⟩
  intro ab hab
  rw [hbuild] at hab
  cases r1 with
  | ok d =>
    simp [Hellio.create_draft_run] at hab
    rw [hab]
  | error e =>
    by_cases hs : Hellio.containsSSL e
    · cases r2 <;> simp [Hellio.create_draft_run, hs] at hab <;>
        rcases hab with h | h <;> rw [h]
    · simp [Hellio.create_draft_run, hs] at hab
      rw [hab]

/-- Witness for C8 at a concrete candidate email with no attachment: the
CV-request draft call carries the message id, and the submitted draft
message's `threadId` equals it. -/
theorem c8_witness :
    (Hellio.DraftCall.mk "a@x.com" "CV Needed" "please send a CV"
        (some "m1")).replyToMessageId = some "m1" ∧
    (Hellio.buildDraftMessage "raw" (some "m1")).threadId = some "m1" ∧
    (∀ ab ∈ (Hellio.create_draft_run (Hellio.buildDraftMessage "raw" (some "m1"))
        (.ok ⟨"d1", "dm1"⟩) (.ok ⟨"d1", "dm1"⟩)).attempts,
      ab.2.threadId = some "m1") :=
  c8_drafts_thread ⟨"m1", "a@x.com", "cand@x.com", "hello", "body", []⟩
    .candidate ⟨none, [], false, true, "please send a CV"⟩
    ⟨"a@x.com", "CV Needed", "please send a CV", some "m1"⟩ "raw"
    (.ok ⟨"d1", "dm1"⟩) (.ok ⟨"d1", "dm1"⟩)
    (by simp [Hellio.workflowDraftCalls]) (by decide)

/-- Claim C4 (amended): the configuration value `MAX_EMAILS_PER_CYCLE`
defaults to 10, not 1, and is environment-overridable rather than fixed;
independently, the scheduler performs exactly one agent dispatch per polling
cycle (whose prompt instructs processing at most one message before
stopping). -/
theorem c4_config_and_dispatch (v : Nat)
    (a : Except String String) (n : Except String Unit) (o : Hellio.CycleOutcome)
    (ho : Hellio.cycleBody a n = .ok o) :
    Hellio.MAX_EMAILS_PER_CYCLE none = 10 ∧
    Hellio.MAX_EMAILS_PER_CYCLE (some v) = v ∧
    o.agentCalls = 1 := by
  refine ⟨rfl, rfl, ?_⟩
  cases a with
  | ok r =>
    simp only [Hellio.cycleBody, Except.ok.injEq] at ho
    rw [← ho]
  | error e =>
    simp only [Hellio.cycleBody, Except.ok.injEq] at ho
    rw [← ho]

/-- Witness for C4 (amended) at a concrete successful cycle. -/
theorem c4_witness :
    Hellio.MAX_EMAILS_PER_CYCLE none = 10 ∧
    Hellio.MAX_EMAILS_PER_CYCLE (some 7) = 7 ∧
    (Hellio.CycleOutcome.mk true 1 false false false).agentCalls = 1 :=
  c4_config_and_dispatch 7 (.ok "processed email m1") (.ok ())
    ⟨true, 1, false, false, false⟩ (by simp [Hellio.cycleBody]; decide)

/-- Claim C6 counterexample: a 50-cycle schedule starting from the fresh
cycle counter never completes - at cycle 50 the loop body re-runs
`create_agent()` outside the try/except (`run.py` lines 55-57), its
`ImportError` (which the embedded `create_agent` always raises) escapes the
cycle uncaught, and the scheduler aborts instead of continuing to the next
cycle; so not every exception raised while processing a cycle is caught at
the top of the loop. -/
theorem c6_counterexample :
    Hellio.runCycles 0
        (List.replicate 50 ⟨.error "transient agent fault", .ok ()⟩) =
      .error "ImportError: cannot import name download_and_ingest_cv" := by
  rfl

/-- Claim C6 (amended): any exception raised inside a cycle's try block (the
agent dispatch) is caught at the top of the loop - it is logged, an
error-typed Notification is reported best-effort with its own failure also
caught, and the scheduler continues, completing every scheduled cycle as
long as no cycle index triggers the periodic agent reset; but the reset
(every `RESET_INTERVAL`-th cycle) runs outside the try/except, so an
exception raised there - which the embedded `create_agent` deterministically
raises - escapes and aborts the scheduler at that cycle. -/
theorem c6_guarded_cycles (a : Except String String) (n : Except String Unit)
    (start : Nat) (envs : List Hellio.CycleEnv) :
    (∃ o, Hellio.cycleBody a n = .ok o) ∧
    (∀ e, a = .error e →
      Hellio.cycleBody a n = .ok ⟨false, 1, true, true, Hellio.isErr n⟩) ∧
    ((∀ j, j < envs.length → (start + j + 1) % Hellio.RESET_INTERVAL ≠ 0) →
      ∃ os, Hellio.runCycles start envs = .ok os ∧ os.length = envs.length) ∧
    (∀ e rest, envs = e :: rest → (start + 1) % Hellio.RESET_INTERVAL = 0 →
      Hellio.runCycles start envs =
        .error "ImportError: cannot import name download_and_ingest_cv") := by
  have hreset : Hellio.resetAgent =
      .error "ImportError: cannot import name download_and_ingest_cv" := rfl
  refine ⟨?_, ?_, ?_, ?_⟩
  · cases a <;> exact ⟨_, rfl⟩
  · rintro e rfl; rfl
  · induction envs generalizing start with
    | nil => exact fun _ => ⟨[], rfl, rfl⟩
    | cons e rest ih =>
      intro h
      have h0 : (start + 1) % Hellio.RESET_INTERVAL ≠ 0 := by
        simpa using h 0 (by simp)
      obtain ⟨os, hos, hlen⟩ := ih (start + 1) (fun j hj => by
        have hj1 := h (j + 1) (by simpa using Nat.succ_lt_succ hj)
        have harith : start + 1 + j + 1 = start + (j + 1) + 1 := by omega
        rw [harith]
        exact hj1)
      cases he : Hellio.cycleBody e.agentRes e.notifyRes with
      | error s => cases ha : e.agentRes <;> rw [ha] at he <;>
          simp [Hellio.cycleBody] at he
      | ok o =>
        refine ⟨o :: os, ?_, by simp [hlen]⟩
        simp [Hellio.runCycles, h0, he, hos]
  · rintro e rest rfl h50
    simp [Hellio.runCycles, h50, hreset]

/-- Witness for C6 (amended): a cycle whose agent call raises and whose
error-notification POST itself fails still completes with the error logged;
a one-cycle schedule away from the reset boundary completes fully; and the
cycle at counter 49 (the program's 50th) aborts with the uncaught
`ImportError` from the reset. -/
theorem c6_witness :
    Hellio.cycleBody (.error "boom") (.error "db down") =
      .ok ⟨false, 1, true, true, true⟩ ∧
    (∃ os, Hellio.runCycles 0 [⟨.error "boom", .error "db down"⟩] = .ok os ∧
      os.length = 1) ∧
    Hellio.runCycles 49 [⟨.ok "No new emails to process", .ok ()⟩] =
      .error "ImportError: cannot import name download_and_ingest_cv" :=
  ⟨(c6_guarded_cycles (.error "boom") (.error "db down") 0
      [⟨.error "boom", .error "db down"⟩]).2.1 "boom" rfl,
   (c6_guarded_cycles (.error "boom") (.error "db down") 0
      [⟨.error "boom", .error "db down"⟩]).2.2.1 (by decide),
   (c6_guarded_cycles (.ok "No new emails to process") (.ok ()) 49
      [⟨.ok "No new emails to process", .ok ()⟩]).2.2.2
      ⟨.ok "No new emails to process", .ok ()⟩ [] rfl (by decide)⟩

/-- Claim C7: after a cycle that dispatched a message (`has_work` true), the
scheduler starts the next cycle with zero sleep; after a cycle that found no
work - in particular after any cycle whose agent call raised, which forces
`has_work` false - it sleeps the configured interval in one-second
increments: the full interval when the running flag stays set, at most `k`
seconds when shutdown clears the flag at iteration `k`, and never more than
the interval. -/
theorem c7_sleep_policy (a : Except String String) (n : Except String Unit)
    (o : Hellio.CycleOutcome) (interval : Nat) (runningAt : Nat → Bool)
    (ho : Hellio.cycleBody a n = .ok o) :
    (o.hasWork = true → Hellio.postCycleSleep true o.hasWork interval runningAt = 0) ∧
    (o.hasWork = false → (∀ i, runningAt i = true) →
      Hellio.postCycleSleep true o.hasWork interval runningAt = interval) ∧
    (∀ e, a = .error e → o.hasWork = false) ∧
    (∀ k, runningAt k = false →
      Hellio.postCycleSleep true o.hasWork interval runningAt ≤ k) ∧
    Hellio.postCycleSleep true o.hasWork interval runningAt ≤ interval := by
  refine ⟨?_, ?_, ?_, ?_, ?_⟩
  · intro h
    simp [Hellio.postCycleSleep, h]
  · intro h hall
    simp [Hellio.postCycleSleep, h, sleptFrom_all_true runningAt hall interval 0]
  · rintro e rfl
    simp only [Hellio.cycleBody, Except.ok.injEq] at ho
    rw [← ho]
  · intro k hk
    cases h : o.hasWork with
    | true => simp [Hellio.postCycleSleep, h]
    | false =>
      simp only [Hellio.postCycleSleep, h, Bool.not_false, Bool.and_true, if_true]
      simpa using sleptFrom_le_of_stop runningAt k hk interval 0 (Nat.zero_le k)
  · cases h : o.hasWork with
    | true => simp [Hellio.postCycleSleep, h]
    | false =>
      simp only [Hellio.postCycleSleep, h, Bool.not_false, Bool.and_true, if_true]
      exact sleptFrom_le runningAt interval 0

/-- Witness for C7: a cycle whose agent processed an email sleeps zero
seconds, and a cycle that found no work with the running flag staying set
sleeps the full 30-second interval. -/
theorem c7_witness :
    Hellio.postCycleSleep true true 30 (fun _ => true) = 0 ∧
    Hellio.postCycleSleep true false 30 (fun _ => true) = 30 :=
  ⟨(c7_sleep_policy (.ok "processed email m1") (.ok ())
      ⟨true, 1, false, false, false⟩ 30 (fun _ => true)
      (by simp [Hellio.cycleBody]; decide)).1 rfl,
   (c7_sleep_policy (.ok "No new emails to process") (.ok ())
      ⟨false, 1, false, false, false⟩ 30 (fun _ => true)
      (by simp [Hellio.cycleBody]; decide)).2.1 rfl
      (fun _ => rfl)⟩
